import Mathlib

/-!
Verification of the cyclical TSDF buffer manager
(`gpu/kinfu_large_scale/include/pcl/gpu/kinfu_large_scale/cyclical_buffer.h`).

The header defines `class CyclicalBuffer` with a `tsdf_buffer buffer_` member
and a `double distance_threshold_` member.  The shallow embedding below
translates the in-header member functions (`CyclicalBuffer` constructors,
`initBuffer`, `resetBuffer`, `shiftOrigin`, `setDistanceThreshold`,
`getDistanceThreshold`) into pure state-passing functions.

The `tsdf_buffer` struct itself is declared in `tsdf_buffer.h`, which is not
among the sources; its fields are modelled from the spec data model (§3):
`wrappedOrigin` (`origin_GRID`) and `voxelCount` (`voxels_size`) as integers,
`globalOrigin` (`origin_GRID_global`) as unbounded integers ("unbounded integer
accumulator of net voxel offsets, no wraparound"), the metric fields
(`origin_metric`, `volume_size`) as exact rationals standing for the floats,
and the three device addresses as integers.  The CUDA `PtrStep` helper (also
external) is modelled as row-major address arithmetic in element units:
`ptr(row)[x] = base + rowStride * row + x`.
-/

/-- Triple of integers, standing for the `int3`-style per-axis fields. -/
structure Int3 where
  x : Int
  y : Int
  z : Int
deriving DecidableEq

/-- Triple of rationals, standing for the `float3`-style per-axis fields. -/
structure Rat3 where
  x : Rat
  y : Rat
  z : Rat
deriving DecidableEq

/-- Modelled from the spec: the `tsdf_buffer` struct (its defining header
`tsdf_buffer.h` is not among the sources).  Fields follow §3 of the spec:
ring origin state, window geometry, and the three memory addresses. -/
structure TsdfBuffer where
  tsdf_memory_start : Int
  tsdf_memory_end : Int
  tsdf_rolling_buff_origin : Int
  origin_GRID : Int3
  origin_GRID_global : Int3
  origin_metric : Rat3
  volume_size : Rat3
  voxels_size : Int3
deriving DecidableEq

/-- State of a `CyclicalBuffer` object: the `distance_threshold_` member
(a C++ `double`, modelled as an exact rational) and the `buffer_` member. -/
structure CyclicalBuffer where
  distance_threshold : Rat
  buffer : TsdfBuffer
deriving DecidableEq

/-- Address of `localVolume.ptr (row)[x]`: the external `PtrStep` helper,
modelled as row-major address arithmetic in element units. -/
def ptrStepAddr (base rowStride row x : Int) : Int :=
  base + rowStride * row + x

/-- Cubic constructor (header lines 34-43): stores the threshold and copies
`cube_size` into all three `volume_size` fields and `nb_voxels_per_axis` into
all three `voxels_size` fields.  The remaining `buffer_` fields keep whatever
initial value `b0` the `tsdf_buffer` default construction produced.  No
validation of any kind is performed. -/
def CyclicalBuffer.ofCube (dist_threshold cube_size : Rat) (nb_voxels_per_axis : Int)
    (b0 : TsdfBuffer) : CyclicalBuffer :=
  { distance_threshold := dist_threshold
    buffer := { b0 with
      volume_size := ⟨cube_size, cube_size, cube_size⟩
      voxels_size := ⟨nb_voxels_per_axis, nb_voxels_per_axis, nb_voxels_per_axis⟩ } }

/-- Anisotropic constructor (header lines 55-64): same, with per-axis sizes. -/
def CyclicalBuffer.ofConfig (dist_threshold : Rat) (vx vy vz : Rat) (nx ny nz : Int)
    (b0 : TsdfBuffer) : CyclicalBuffer :=
  { distance_threshold := dist_threshold
    buffer := { b0 with
      volume_size := ⟨vx, vy, vz⟩
      voxels_size := ⟨nx, ny, nz⟩ } }

/-- Setter `setDistanceThreshold` (header lines 95-99): stores the threshold
(the `PCL_INFO` logging side effect is irrelevant to state). -/
def setDistanceThreshold (s : CyclicalBuffer) (threshold : Rat) : CyclicalBuffer :=
  { s with distance_threshold := threshold }

/-- Accessor `getDistanceThreshold` (header line 102): the member is a
`double` but the declared return type is `float`, so the stored value is
narrowed to single precision on return.  The double-to-float conversion is
abstracted as a function `narrow`; theorems constrain its range to
single-precision-representable values. -/
def getDistanceThreshold (narrow : Rat → Rat) (s : CyclicalBuffer) : Rat :=
  narrow s.distance_threshold

/-- Member `initBuffer` (header lines 127-134): binds the memory bounds to the
given volume store (`base`, `rowStride` model `tsdf_volume->data()`) and sets
the rolling-buffer origin pointer to the start address.  Note that it does not
touch `origin_GRID` or any other origin field. -/
def initBuffer (s : CyclicalBuffer) (base rowStride : Int) : CyclicalBuffer :=
  { s with buffer := { s.buffer with
      tsdf_memory_start := ptrStepAddr base rowStride 0 0
      tsdf_memory_end := ptrStepAddr base rowStride
        (s.buffer.voxels_size.y * (s.buffer.voxels_size.z - 1) + (s.buffer.voxels_size.y - 1))
        (s.buffer.voxels_size.x - 1)
      tsdf_rolling_buff_origin := ptrStepAddr base rowStride 0 0 } }

/-- Member `resetBuffer` (header lines 139-145): zeroes `origin_GRID`,
`origin_GRID_global` and `origin_metric`, then calls `initBuffer`. -/
def resetBuffer (s : CyclicalBuffer) (base rowStride : Int) : CyclicalBuffer :=
  initBuffer
    { s with buffer := { s.buffer with
        origin_GRID := ⟨0, 0, 0⟩
        origin_GRID_global := ⟨0, 0, 0⟩
        origin_metric := ⟨0, 0, 0⟩ } }
    base rowStride

/-- Per-axis body of `shiftOrigin` (header lines 182-198): add the offset,
then subtract `n` if the sum reached `n`, else add `n` if it is negative. -/
def shiftAxis (g o n : Int) : Int :=
  if n ≤ g + o then g + o - n
  else if g + o < 0 then g + o + n
  else g + o

/-- Member `shiftOrigin` (header lines 179-210): wraps each `origin_GRID`
axis via `shiftAxis`, recomputes the three memory pointers from
`tsdf_volume->data()` (modelled by `base`/`rowStride`), and adds the offsets
to `origin_GRID_global` with no wraparound. -/
def shiftOrigin (s : CyclicalBuffer) (base rowStride : Int) (ox oy oz : Int) :
    CyclicalBuffer :=
  { s with buffer := { s.buffer with
      origin_GRID := ⟨shiftAxis s.buffer.origin_GRID.x ox s.buffer.voxels_size.x,
                      shiftAxis s.buffer.origin_GRID.y oy s.buffer.voxels_size.y,
                      shiftAxis s.buffer.origin_GRID.z oz s.buffer.voxels_size.z⟩
      tsdf_memory_start := ptrStepAddr base rowStride 0 0
      tsdf_memory_end := ptrStepAddr base rowStride
        (s.buffer.voxels_size.y * (s.buffer.voxels_size.z - 1) + (s.buffer.voxels_size.y - 1))
        (s.buffer.voxels_size.x - 1)
      tsdf_rolling_buff_origin := ptrStepAddr base rowStride
        (s.buffer.voxels_size.y * shiftAxis s.buffer.origin_GRID.z oz s.buffer.voxels_size.z +
          shiftAxis s.buffer.origin_GRID.y oy s.buffer.voxels_size.y)
        (shiftAxis s.buffer.origin_GRID.x ox s.buffer.voxels_size.x)
      origin_GRID_global := ⟨s.buffer.origin_GRID_global.x + ox,
                             s.buffer.origin_GRID_global.y + oy,
                             s.buffer.origin_GRID_global.z + oz⟩ } }

/-- Sequence of `shiftOrigin` calls against the same volume store. -/
def shiftOriginSeq (s : CyclicalBuffer) (base rowStride : Int) :
    List Int3 → CyclicalBuffer
  | [] => s
  | o :: rest => shiftOriginSeq (shiftOrigin s base rowStride o.x o.y o.z) base rowStride rest

/-- Wrap invariant of §3/§8: on each axis, `origin_GRID` lies in
`[0, voxels_size)` and is congruent to `origin_GRID_global` modulo
`voxels_size`. -/
def ringInvariant (s : CyclicalBuffer) : Prop :=
  (0 ≤ s.buffer.origin_GRID.x ∧ s.buffer.origin_GRID.x < s.buffer.voxels_size.x ∧
    s.buffer.origin_GRID.x % s.buffer.voxels_size.x =
      s.buffer.origin_GRID_global.x % s.buffer.voxels_size.x) ∧
  (0 ≤ s.buffer.origin_GRID.y ∧ s.buffer.origin_GRID.y < s.buffer.voxels_size.y ∧
    s.buffer.origin_GRID.y % s.buffer.voxels_size.y =
      s.buffer.origin_GRID_global.y % s.buffer.voxels_size.y) ∧
  (0 ≤ s.buffer.origin_GRID.z ∧ s.buffer.origin_GRID.z < s.buffer.voxels_size.z ∧
    s.buffer.origin_GRID.z % s.buffer.voxels_size.z =
      s.buffer.origin_GRID_global.z % s.buffer.voxels_size.z)

instance (s : CyclicalBuffer) : Decidable (ringInvariant s) := by
  unfold ringInvariant; infer_instance

/-- Per-axis clamp of §4.2: each offset magnitude is at most `voxelCount - 1`. -/
def offsetClamped (n o : Int3) : Prop :=
  |o.x| ≤ n.x - 1 ∧ |o.y| ≤ n.y - 1 ∧ |o.z| ≤ n.z - 1

instance (n o : Int3) : Decidable (offsetClamped n o) := by
  unfold offsetClamped; infer_instance

/-- Per-axis positivity of the voxel counts (spec §3: positive integers). -/
def voxelsPos (s : CyclicalBuffer) : Prop :=
  0 < s.buffer.voxels_size.x ∧ 0 < s.buffer.voxels_size.y ∧ 0 < s.buffer.voxels_size.z

instance (s : CyclicalBuffer) : Decidable (voxelsPos s) := by
  unfold voxelsPos; infer_instance

/-- Modelled from the spec: the body of
`CyclicalBuffer::computeAndSetNewCubeMetricOrigin` is not among the sources
(only its declaration at header line 122 is).  Per spec §4.2 the planner
rounds the raw voxel offset half away from zero. -/
def roundHalfAwayFromZero (q : Rat) : Int :=
  if 0 ≤ q then ⌊q + 1 / 2⌋ else ⌈q - 1 / 2⌉

/-- Modelled from the spec (§4.2): per axis the planner computes
`rawOffsetVoxels = (targetPoint - windowCenterMetric) / voxelSize` and takes
`round-half-away-from-zero` of it. -/
def planOffsetAxis (targetPoint windowCenterMetric voxelSize : Rat) : Int :=
  roundHalfAwayFromZero ((targetPoint - windowCenterMetric) / voxelSize)

/-- Dyadic rationals with a `p`-bit significand: the values representable in a
binary floating-point format with `p` significand bits (ignoring exponent
range).  `p = 24` corresponds to single precision, `p = 53` to double. -/
def isDyadic (p : Nat) (q : Rat) : Prop :=
  ∃ m : Int, ∃ k : Nat, |m| < 2 ^ p ∧ (q * 2 ^ k = m ∨ q = m * 2 ^ k)

/-- Sample `tsdf_buffer` value: a 1 m cube of 10 voxels per axis, all origins
zero, addresses zero. -/
def sampleBuffer : TsdfBuffer :=
  { tsdf_memory_start := 0
    tsdf_memory_end := 0
    tsdf_rolling_buff_origin := 0
    origin_GRID := ⟨0, 0, 0⟩
    origin_GRID_global := ⟨0, 0, 0⟩
    origin_metric := ⟨0, 0, 0⟩
    volume_size := ⟨1, 1, 1⟩
    voxels_size := ⟨10, 10, 10⟩ }

/-- Sample `CyclicalBuffer` state built on `sampleBuffer`. -/
def sampleState : CyclicalBuffer :=
  { distance_threshold := 1, buffer := sampleBuffer }

/-- Sample state whose grid origin is away from zero. -/
def shiftedSample : CyclicalBuffer :=
  { distance_threshold := 1
    buffer := { sampleBuffer with origin_GRID := ⟨1, 2, 3⟩, origin_GRID_global := ⟨21, -18, 13⟩ } }

/-- Congruence of the per-axis wrap: one correction never changes the residue. -/
lemma shiftAxis_emod (g o n : Int) : shiftAxis g o n % n = (g + o) % n := by
  unfold shiftAxis
  split_ifs with h1 h2
  · conv_lhs => rw [show g + o - n = g + o + n * (-1) by ring]
    rw [Int.add_mul_emod_self_left]
  · conv_lhs => rw [show g + o + n = g + o + n * 1 by ring]
    rw [Int.add_mul_emod_self_left]
  · rfl

/-- Range of the per-axis wrap: with a clamped offset and an in-range start,
the single correction lands back in `[0, n)`. -/
lemma shiftAxis_range (g o n : Int) (hn : 0 < n) (h0 : 0 ≤ g) (h1 : g < n)
    (hc : |o| ≤ n - 1) : 0 ≤ shiftAxis g o n ∧ shiftAxis g o n < n := by
  rw [abs_le] at hc
  unfold shiftAxis
  split_ifs <;> omega

/-- The per-axis wrap computes exactly the euclidean remainder. -/
lemma shiftAxis_eq_emod (g o n : Int) (hn : 0 < n) (h0 : 0 ≤ g) (h1 : g < n)
    (hc : |o| ≤ n - 1) : shiftAxis g o n = (g + o) % n := by
  obtain ⟨hr0, hr1⟩ := shiftAxis_range g o n hn h0 h1 hc
  rw [← Int.emod_eq_of_lt hr0 hr1, shiftAxis_emod]

/-- Applying the per-axis wrap with an offset and then its negation returns
to the starting value. -/
lemma shiftAxis_reverse (g o n : Int) (hn : 0 < n) (h0 : 0 ≤ g) (h1 : g < n)
    (hc : |o| ≤ n - 1) : shiftAxis (shiftAxis g o n) (-o) n = g := by
  obtain ⟨hr0, hr1⟩ := shiftAxis_range g o n hn h0 h1 hc
  have hc2 : |(-o)| ≤ n - 1 := by rwa [abs_neg]
  rw [shiftAxis_eq_emod _ _ _ hn hr0 hr1 hc2, shiftAxis_eq_emod g o n hn h0 h1 hc]
  have h3 : ((g + o) % n + -o) % n = (g + o + -o) % n := by
    conv_rhs => rw [Int.add_emod]
    conv_lhs => rw [Int.add_emod, Int.emod_emod_of_dvd _ dvd_rfl]
  rw [h3, show g + o + -o = g by ring, Int.emod_eq_of_lt h0 h1]

/-- Frame helper: `shiftOrigin` keeps the voxel counts. -/
lemma shiftOrigin_voxels (s : CyclicalBuffer) (base rowStride ox oy oz : Int) :
    (shiftOrigin s base rowStride ox oy oz).buffer.voxels_size = s.buffer.voxels_size := rfl

/-- Single-step preservation of the wrap invariant. -/
lemma ringInvariant_shiftOrigin (s : CyclicalBuffer) (base rowStride ox oy oz : Int)
    (hpos : voxelsPos s)
    (hc : offsetClamped s.buffer.voxels_size ⟨ox, oy, oz⟩)
    (hinv : ringInvariant s) :
    ringInvariant (shiftOrigin s base rowStride ox oy oz) := by
  obtain ⟨hpx, hpy, hpz⟩ := hpos
  obtain ⟨hcx, hcy, hcz⟩ := hc
  obtain ⟨⟨hx0, hx1, hx2⟩, ⟨hy0, hy1, hy2⟩, ⟨hz0, hz1, hz2⟩⟩ := hinv
  refine ⟨⟨?_, ?_, ?_⟩, ⟨?_, ?_, ?_⟩, ⟨?_, ?_, ?_⟩⟩
  · exact (shiftAxis_range _ ox _ hpx hx0 hx1 hcx).1
  · exact (shiftAxis_range _ ox _ hpx hx0 hx1 hcx).2
  · show shiftAxis s.buffer.origin_GRID.x ox s.buffer.voxels_size.x % s.buffer.voxels_size.x =
      (s.buffer.origin_GRID_global.x + ox) % s.buffer.voxels_size.x
    rw [shiftAxis_emod, Int.add_emod, hx2, ← Int.add_emod]
  · exact (shiftAxis_range _ oy _ hpy hy0 hy1 hcy).1
  · exact (shiftAxis_range _ oy _ hpy hy0 hy1 hcy).2
  · show shiftAxis s.buffer.origin_GRID.y oy s.buffer.voxels_size.y % s.buffer.voxels_size.y =
      (s.buffer.origin_GRID_global.y + oy) % s.buffer.voxels_size.y
    rw [shiftAxis_emod, Int.add_emod, hy2, ← Int.add_emod]
  · exact (shiftAxis_range _ oz _ hpz hz0 hz1 hcz).1
  · exact (shiftAxis_range _ oz _ hpz hz0 hz1 hcz).2
  · show shiftAxis s.buffer.origin_GRID.z oz s.buffer.voxels_size.z % s.buffer.voxels_size.z =
      (s.buffer.origin_GRID_global.z + oz) % s.buffer.voxels_size.z
    rw [shiftAxis_emod, Int.add_emod, hz2, ← Int.add_emod]

/-- C1: for every sequence of shifts whose per-axis offsets are clamped to
`|offset| ≤ voxelCount - 1`, starting from a state whose `origin_GRID` lies in
`[0, voxelCount)` and is congruent to `origin_GRID_global` modulo `voxelCount`,
every state reached by `shiftOrigin` calls still satisfies both properties on
every axis (the sequence is universally quantified, so the invariant holds
after each intermediate call as well). -/
theorem wrap_invariant_shiftOrigin_seq (s : CyclicalBuffer) (base rowStride : Int)
    (offs : List Int3)
    (hpos : voxelsPos s)
    (hclamp : ∀ o ∈ offs, offsetClamped s.buffer.voxels_size o)
    (hinv : ringInvariant s) :
    ringInvariant (shiftOriginSeq s base rowStride offs) := by
  induction offs generalizing s with
  | nil => exact hinv
  | cons o rest ih =>
    have hstep := ringInvariant_shiftOrigin s base rowStride o.x o.y o.z hpos
      (by simpa using hclamp o (List.mem_cons_self o rest)) hinv
    exact ih (shiftOrigin s base rowStride o.x o.y o.z) hpos
      (fun p hp => hclamp p (List.mem_cons_of_mem o hp)) hstep

/-- Witness for C1 at a concrete state and offset sequence. -/
theorem wrap_invariant_shiftOrigin_seq_witness :
    ringInvariant (shiftOriginSeq shiftedSample 5 100 [⟨3, 4, 5⟩, ⟨-9, 0, 9⟩, ⟨7, -7, 1⟩]) :=
  wrap_invariant_shiftOrigin_seq shiftedSample 5 100 [⟨3, 4, 5⟩, ⟨-9, 0, 9⟩, ⟨7, -7, 1⟩]
    (by decide) (by decide) (by decide)

/-- C2: with clamped offsets and an in-range origin, `shiftOrigin` commits
`origin_GRID[axis] = (origin_GRID[axis] + offset[axis]) mod voxelCount[axis]`
on every axis — the single add/subtract correction of the code suffices, the
result lying in `[0, voxelCount)` — while `origin_GRID_global` is incremented
by the offset unconditionally, with no wraparound. -/
theorem shiftOrigin_commit_emod (s : CyclicalBuffer) (base rowStride ox oy oz : Int)
    (hpos : voxelsPos s)
    (hrange : 0 ≤ s.buffer.origin_GRID.x ∧ s.buffer.origin_GRID.x < s.buffer.voxels_size.x ∧
      0 ≤ s.buffer.origin_GRID.y ∧ s.buffer.origin_GRID.y < s.buffer.voxels_size.y ∧
      0 ≤ s.buffer.origin_GRID.z ∧ s.buffer.origin_GRID.z < s.buffer.voxels_size.z)
    (hc : offsetClamped s.buffer.voxels_size ⟨ox, oy, oz⟩) :
    (shiftOrigin s base rowStride ox oy oz).buffer.origin_GRID =
      ⟨(s.buffer.origin_GRID.x + ox) % s.buffer.voxels_size.x,
       (s.buffer.origin_GRID.y + oy) % s.buffer.voxels_size.y,
       (s.buffer.origin_GRID.z + oz) % s.buffer.voxels_size.z⟩ ∧
    (0 ≤ (shiftOrigin s base rowStride ox oy oz).buffer.origin_GRID.x ∧
      (shiftOrigin s base rowStride ox oy oz).buffer.origin_GRID.x < s.buffer.voxels_size.x) ∧
    (0 ≤ (shiftOrigin s base rowStride ox oy oz).buffer.origin_GRID.y ∧
      (shiftOrigin s base rowStride ox oy oz).buffer.origin_GRID.y < s.buffer.voxels_size.y) ∧
    (0 ≤ (shiftOrigin s base rowStride ox oy oz).buffer.origin_GRID.z ∧
      (shiftOrigin s base rowStride ox oy oz).buffer.origin_GRID.z < s.buffer.voxels_size.z) ∧
    (shiftOrigin s base rowStride ox oy oz).buffer.origin_GRID_global =
      ⟨s.buffer.origin_GRID_global.x + ox,
       s.buffer.origin_GRID_global.y + oy,
       s.buffer.origin_GRID_global.z + oz⟩ := by
  obtain ⟨hpx, hpy, hpz⟩ := hpos
  obtain ⟨hcx, hcy, hcz⟩ := hc
  obtain ⟨hx0, hx1, hy0, hy1, hz0, hz1⟩ := hrange
  refine ⟨?_, ?_, ?_, ?_, rfl⟩
  · show Int3.mk (shiftAxis s.buffer.origin_GRID.x ox s.buffer.voxels_size.x)
      (shiftAxis s.buffer.origin_GRID.y oy s.buffer.voxels_size.y)
      (shiftAxis s.buffer.origin_GRID.z oz s.buffer.voxels_size.z) = _
    rw [shiftAxis_eq_emod _ _ _ hpx hx0 hx1 hcx,
      shiftAxis_eq_emod _ _ _ hpy hy0 hy1 hcy,
      shiftAxis_eq_emod _ _ _ hpz hz0 hz1 hcz]
  · exact shiftAxis_range _ ox _ hpx hx0 hx1 hcx
  · exact shiftAxis_range _ oy _ hpy hy0 hy1 hcy
  · exact shiftAxis_range _ oz _ hpz hz0 hz1 hcz

/-- Witness for C2 at a concrete state and offsets. -/
theorem shiftOrigin_commit_emod_witness :
    (shiftOrigin shiftedSample 5 100 9 (-9) 0).buffer.origin_GRID =
      ⟨(shiftedSample.buffer.origin_GRID.x + 9) % shiftedSample.buffer.voxels_size.x,
       (shiftedSample.buffer.origin_GRID.y + -9) % shiftedSample.buffer.voxels_size.y,
       (shiftedSample.buffer.origin_GRID.z + 0) % shiftedSample.buffer.voxels_size.z⟩ ∧
    (0 ≤ (shiftOrigin shiftedSample 5 100 9 (-9) 0).buffer.origin_GRID.x ∧
      (shiftOrigin shiftedSample 5 100 9 (-9) 0).buffer.origin_GRID.x <
        shiftedSample.buffer.voxels_size.x) ∧
    (0 ≤ (shiftOrigin shiftedSample 5 100 9 (-9) 0).buffer.origin_GRID.y ∧
      (shiftOrigin shiftedSample 5 100 9 (-9) 0).buffer.origin_GRID.y <
        shiftedSample.buffer.voxels_size.y) ∧
    (0 ≤ (shiftOrigin shiftedSample 5 100 9 (-9) 0).buffer.origin_GRID.z ∧
      (shiftOrigin shiftedSample 5 100 9 (-9) 0).buffer.origin_GRID.z <
        shiftedSample.buffer.voxels_size.z) ∧
    (shiftOrigin shiftedSample 5 100 9 (-9) 0).buffer.origin_GRID_global =
      ⟨shiftedSample.buffer.origin_GRID_global.x + 9,
       shiftedSample.buffer.origin_GRID_global.y + -9,
       shiftedSample.buffer.origin_GRID_global.z + 0⟩ :=
  shiftOrigin_commit_emod shiftedSample 5 100 9 (-9) 0 (by decide) (by decide) (by decide)

/-- C5: applying `shiftOrigin` with offsets `(ox, oy, oz)` and then with
`(-ox, -oy, -oz)`, each within the per-axis clamp and starting from an
in-range origin, returns both `origin_GRID` and `origin_GRID_global` to their
values before the first shift. -/
theorem shiftOrigin_reversible (s : CyclicalBuffer) (base rowStride ox oy oz : Int)
    (hpos : voxelsPos s)
    (hrange : 0 ≤ s.buffer.origin_GRID.x ∧ s.buffer.origin_GRID.x < s.buffer.voxels_size.x ∧
      0 ≤ s.buffer.origin_GRID.y ∧ s.buffer.origin_GRID.y < s.buffer.voxels_size.y ∧
      0 ≤ s.buffer.origin_GRID.z ∧ s.buffer.origin_GRID.z < s.buffer.voxels_size.z)
    (hc : offsetClamped s.buffer.voxels_size ⟨ox, oy, oz⟩) :
    (shiftOrigin (shiftOrigin s base rowStride ox oy oz) base rowStride
        (-ox) (-oy) (-oz)).buffer.origin_GRID = s.buffer.origin_GRID ∧
    (shiftOrigin (shiftOrigin s base rowStride ox oy oz) base rowStride
        (-ox) (-oy) (-oz)).buffer.origin_GRID_global = s.buffer.origin_GRID_global := by
  obtain ⟨hpx, hpy, hpz⟩ := hpos
  obtain ⟨hcx, hcy, hcz⟩ := hc
  obtain ⟨hx0, hx1, hy0, hy1, hz0, hz1⟩ := hrange
  constructor
  · show Int3.mk
      (shiftAxis (shiftAxis s.buffer.origin_GRID.x ox s.buffer.voxels_size.x) (-ox)
        s.buffer.voxels_size.x)
      (shiftAxis (shiftAxis s.buffer.origin_GRID.y oy s.buffer.voxels_size.y) (-oy)
        s.buffer.voxels_size.y)
      (shiftAxis (shiftAxis s.buffer.origin_GRID.z oz s.buffer.voxels_size.z) (-oz)
        s.buffer.voxels_size.z) = s.buffer.origin_GRID
    rw [shiftAxis_reverse _ _ _ hpx hx0 hx1 hcx, shiftAxis_reverse _ _ _ hpy hy0 hy1 hcy,
      shiftAxis_reverse _ _ _ hpz hz0 hz1 hcz]
  · show Int3.mk (s.buffer.origin_GRID_global.x + ox + -ox)
      (s.buffer.origin_GRID_global.y + oy + -oy)
      (s.buffer.origin_GRID_global.z + oz + -oz) = s.buffer.origin_GRID_global
    have h1 : s.buffer.origin_GRID_global.x + ox + -ox = s.buffer.origin_GRID_global.x := by ring
    have h2 : s.buffer.origin_GRID_global.y + oy + -oy = s.buffer.origin_GRID_global.y := by ring
    have h3 : s.buffer.origin_GRID_global.z + oz + -oz = s.buffer.origin_GRID_global.z := by ring
    rw [h1, h2, h3]

/-- Witness for C5 at a concrete state and offsets. -/
theorem shiftOrigin_reversible_witness :
    (shiftOrigin (shiftOrigin shiftedSample 5 100 7 (-9) 4) 5 100
        (-7) (-(-9)) (-4)).buffer.origin_GRID = shiftedSample.buffer.origin_GRID ∧
    (shiftOrigin (shiftOrigin shiftedSample 5 100 7 (-9) 4) 5 100
        (-7) (-(-9)) (-4)).buffer.origin_GRID_global =
      shiftedSample.buffer.origin_GRID_global :=
  shiftOrigin_reversible shiftedSample 5 100 7 (-9) 4 (by decide) (by decide) (by decide)

/-- C3 counterexample: `shiftOrigin` does not set `origin_metric` to
`origin_GRID_global * voxelSize`.  Starting from the all-zero sample state
(where the relation holds) and shifting by `(1,0,0)`, `origin_GRID_global.x`
becomes `1` while `origin_metric.x` stays `0`, so
`origin_metric.x ≠ origin_GRID_global.x * (volume_size.x / voxels_size.x)`
after the call. -/
theorem shiftOrigin_metric_counterexample :
    ¬ ((shiftOrigin sampleState 0 100 1 0 0).buffer.origin_metric.x =
      ((shiftOrigin sampleState 0 100 1 0 0).buffer.origin_GRID_global.x : Rat) *
        ((shiftOrigin sampleState 0 100 1 0 0).buffer.volume_size.x /
          ((shiftOrigin sampleState 0 100 1 0 0).buffer.voxels_size.x : Rat))) := by
  norm_num [shiftOrigin, sampleState, sampleBuffer, shiftAxis]

/-- C3 amended: `shiftOrigin` leaves `origin_metric` unchanged on every axis;
the metric origin is updated elsewhere (by the shift planner
`computeAndSetNewCubeMetricOrigin`), not by the `shiftOrigin` commit step. -/
theorem shiftOrigin_preserves_origin_metric (s : CyclicalBuffer)
    (base rowStride ox oy oz : Int) :
    (shiftOrigin s base rowStride ox oy oz).buffer.origin_metric =
      s.buffer.origin_metric := rfl

/-- C4 counterexample: `initBuffer` does not set `origin_GRID` (the wrapped
origin) to `(0,0,0)`; from a state with `origin_GRID = (1,2,3)` it leaves it
at `(1,2,3)`. -/
theorem initBuffer_origin_GRID_counterexample :
    ¬ ((initBuffer shiftedSample 0 100).buffer.origin_GRID = ⟨0, 0, 0⟩) := by
  decide

/-- C4 amended: `initBuffer` binds the memory bounds (start and end
addresses) to the given volume store and sets the rolling-buffer origin
pointer to the start address (the address corresponding to wrapped origin
`(0,0,0)`), but leaves the `origin_GRID` field itself unchanged; `resetBuffer`
zeroes `origin_GRID`, `origin_GRID_global` and `origin_metric` and then binds
the memory bounds. -/
theorem initBuffer_resetBuffer_spec (s : CyclicalBuffer) (base rowStride : Int) :
    (initBuffer s base rowStride).buffer.tsdf_memory_start =
      ptrStepAddr base rowStride 0 0 ∧
    (initBuffer s base rowStride).buffer.tsdf_memory_end =
      ptrStepAddr base rowStride
        (s.buffer.voxels_size.y * (s.buffer.voxels_size.z - 1) + (s.buffer.voxels_size.y - 1))
        (s.buffer.voxels_size.x - 1) ∧
    (initBuffer s base rowStride).buffer.tsdf_rolling_buff_origin =
      ptrStepAddr base rowStride 0 0 ∧
    (initBuffer s base rowStride).buffer.origin_GRID = s.buffer.origin_GRID ∧
    (resetBuffer s base rowStride).buffer.origin_GRID = ⟨0, 0, 0⟩ ∧
    (resetBuffer s base rowStride).buffer.origin_GRID_global = ⟨0, 0, 0⟩ ∧
    (resetBuffer s base rowStride).buffer.origin_metric = ⟨0, 0, 0⟩ :=
  ⟨rfl, rfl, rfl, rfl, rfl, rfl, rfl⟩

/-- C6: after every `shiftOrigin` commit, the logical start address
`tsdf_rolling_buff_origin` equals
`base + rowStride * (voxelCount.y * wrappedOrigin.z + wrappedOrigin.y) +
wrappedOrigin.x`, row-major with x fastest, evaluated at the post-commit
`origin_GRID`. -/
theorem rolling_buff_origin_row_major (s : CyclicalBuffer)
    (base rowStride ox oy oz : Int) :
    (shiftOrigin s base rowStride ox oy oz).buffer.tsdf_rolling_buff_origin =
      base + rowStride *
        ((shiftOrigin s base rowStride ox oy oz).buffer.voxels_size.y *
          (shiftOrigin s base rowStride ox oy oz).buffer.origin_GRID.z +
         (shiftOrigin s base rowStride ox oy oz).buffer.origin_GRID.y) +
      (shiftOrigin s base rowStride ox oy oz).buffer.origin_GRID.x := rfl

/-- C7 counterexample: construction with a non-positive size and a
non-positive voxel count neither reports an error nor prevents use: the
cubic constructor at `cube_size = -1`, `nb_voxels_per_axis = 0` stores the
non-positive configuration verbatim, and `shiftOrigin` still operates on the
resulting window (here incrementing the global origin). -/
theorem ctor_no_validation_counterexample :
    (CyclicalBuffer.ofCube 1 (-1) 0 sampleBuffer).buffer.volume_size.x = -1 ∧
    (CyclicalBuffer.ofCube 1 (-1) 0 sampleBuffer).buffer.voxels_size.x = 0 ∧
    (shiftOrigin (CyclicalBuffer.ofCube 1 (-1) 0 sampleBuffer) 0 100 1 0 0).buffer.origin_GRID_global.x =
      (CyclicalBuffer.ofCube 1 (-1) 0 sampleBuffer).buffer.origin_GRID_global.x + 1 := by
  decide

/-- C7 amended: the constructors perform no validation: for every
configuration, including non-positive sizes and voxel counts, the parameters
are stored unchanged and the window remains usable. -/
theorem ctor_stores_config_unconditionally (dt cs : Rat) (nb : Int) (b0 : TsdfBuffer) :
    (CyclicalBuffer.ofCube dt cs nb b0).distance_threshold = dt ∧
    (CyclicalBuffer.ofCube dt cs nb b0).buffer.volume_size = ⟨cs, cs, cs⟩ ∧
    (CyclicalBuffer.ofCube dt cs nb b0).buffer.voxels_size = ⟨nb, nb, nb⟩ ∧
    (CyclicalBuffer.ofConfig dt cs cs cs nb nb nb b0).buffer.volume_size = ⟨cs, cs, cs⟩ :=
  ⟨rfl, rfl, rfl, rfl⟩

/-- C8: the shift planner computes
`rawOffsetVoxels = (targetPoint - windowCenterMetric) / voxelSize` per axis
and rounds it half away from zero; with `voxelSize = 1/10` m, a displacement
of `1/4` m (0.25 m) plans an offset of 3 voxels and a displacement of
`6/25` m (0.24 m) plans 2. -/
theorem planOffsetAxis_rounding :
    (∀ t c v : Rat, planOffsetAxis t c v = roundHalfAwayFromZero ((t - c) / v)) ∧
    planOffsetAxis (1 / 4) 0 (1 / 10) = 3 ∧
    planOffsetAxis (6 / 25) 0 (1 / 10) = 2 :=
  ⟨fun _ _ _ => rfl,
    by norm_num [planOffsetAxis, roundHalfAwayFromZero],
    by norm_num [planOffsetAxis, roundHalfAwayFromZero]⟩

/-- C9: `shiftOrigin` modifies only the ring origin state and the three
memory pointers; the window geometry (`volume_size`, `voxels_size`),
`origin_metric` and `distance_threshold_` are unchanged by every call. -/
theorem shiftOrigin_frame_effect (s : CyclicalBuffer) (base rowStride ox oy oz : Int) :
    (shiftOrigin s base rowStride ox oy oz).distance_threshold = s.distance_threshold ∧
    (shiftOrigin s base rowStride ox oy oz).buffer.volume_size = s.buffer.volume_size ∧
    (shiftOrigin s base rowStride ox oy oz).buffer.voxels_size = s.buffer.voxels_size ∧
    (shiftOrigin s base rowStride ox oy oz).buffer.origin_metric = s.buffer.origin_metric :=
  ⟨rfl, rfl, rfl, rfl⟩

/-- The value `(2^52 + 1) / 2^52` is double-precision representable. -/
lemma isDyadic53_sample : isDyadic 53 ((2 ^ 52 + 1 : Rat) / 2 ^ 52) := by
  refine ⟨2 ^ 52 + 1, 52, by norm_num, Or.inl ?_⟩
  push_cast
  norm_num

/-- The value `(2^52 + 1) / 2^52` is not single-precision representable: any
dyadic representation needs an odd significand of at least `2^52 + 1`. -/
lemma not_isDyadic24_sample : ¬ isDyadic 24 ((2 ^ 52 + 1 : Rat) / 2 ^ 52) := by
  rintro ⟨m, k, hm, h | h⟩
  · have hq : ((2 : Rat) ^ 52) ≠ 0 := by norm_num
    rw [div_mul_eq_mul_div, div_eq_iff hq] at h
    have hz : (2 ^ 52 + 1 : Int) * 2 ^ k = m * 2 ^ 52 := by exact_mod_cast h
    rcases le_or_lt 52 k with hk | hk
    · have e : (2 : Int) ^ (k - 52) * 2 ^ 52 = 2 ^ k := by
        rw [← pow_add]
        congr 1
        omega
      have hz2 : ((2 ^ 52 + 1 : Int) * 2 ^ (k - 52)) * 2 ^ 52 = m * 2 ^ 52 := by
        rw [mul_assoc, e]
        exact hz
      have hmd : (2 ^ 52 + 1 : Int) * 2 ^ (k - 52) = m :=
        mul_right_cancel₀ (show ((2 : Int) ^ 52) ≠ 0 by norm_num) hz2
      have h0 : (0 : Int) < 2 ^ (k - 52) := by positivity
      have h1 : (1 : Int) ≤ 2 ^ (k - 52) := by simpa using Int.add_one_le_iff.mpr h0
      have h2 : (2 ^ 52 + 1 : Int) ≤ (2 ^ 52 + 1) * 2 ^ (k - 52) :=
        le_mul_of_one_le_right (by positivity) h1
      have h3 : (2 ^ 52 + 1 : Int) ≤ |m| := by
        rw [← hmd]
        exact le_trans h2 (le_abs_self _)
      have h5 : (2 : Int) ^ 24 < 2 ^ 52 + 1 := by norm_num
      linarith
    · have e : (2 : Int) ^ (52 - k) * 2 ^ k = 2 ^ 52 := by
        rw [← pow_add]
        congr 1
        omega
      have hz2 : (2 ^ 52 + 1 : Int) * 2 ^ k = (m * 2 ^ (52 - k)) * 2 ^ k := by
        rw [mul_assoc, e]
        exact hz
      have h2 : (2 ^ 52 + 1 : Int) = m * 2 ^ (52 - k) :=
        mul_right_cancel₀ (show ((2 : Int) ^ k) ≠ 0 by positivity) hz2
      have h3 : (2 : Int) ∣ 2 ^ (52 - k) := dvd_pow_self 2 (by omega)
      have h4 : (2 : Int) ∣ 2 ^ 52 + 1 := by
        rw [h2]
        exact Dvd.dvd.mul_left h3 m
      norm_num at h4
  · have hq : ((2 : Rat) ^ 52) ≠ 0 := by norm_num
    rw [div_eq_iff hq] at h
    have hz : (2 ^ 52 + 1 : Int) = m * 2 ^ k * 2 ^ 52 := by exact_mod_cast h
    have h3 : (2 : Int) ∣ 2 ^ 52 := dvd_pow_self 2 (by norm_num)
    have h4 : (2 : Int) ∣ 2 ^ 52 + 1 := by
      rw [hz]
      exact Dvd.dvd.mul_left h3 (m * 2 ^ k)
    norm_num at h4

/-- C10: `distance_threshold_` is stored as a `double` but
`getDistanceThreshold` is declared to return `float`, so the stored value is
narrowed to single precision on return; for every narrowing map whose range
consists of single-precision-representable (24-bit-significand dyadic) values,
some double-precision-representable (53-bit-significand dyadic) threshold `t`
set by `setDistanceThreshold` is returned altered. -/
theorem getDistanceThreshold_narrows (narrow : Rat → Rat)
    (hn : ∀ q : Rat, isDyadic 24 (narrow q)) (s : CyclicalBuffer) :
    ∃ t : Rat, isDyadic 53 t ∧
      getDistanceThreshold narrow (setDistanceThreshold s t) ≠ t := by
  refine ⟨(2 ^ 52 + 1 : Rat) / 2 ^ 52, isDyadic53_sample, fun h => not_isDyadic24_sample ?_⟩
  have h2 : getDistanceThreshold narrow (setDistanceThreshold s ((2 ^ 52 + 1 : Rat) / 2 ^ 52)) =
      narrow ((2 ^ 52 + 1 : Rat) / 2 ^ 52) := rfl
  rw [h2] at h
  rw [← h]
  exact hn _

/-- Witness for C10 with a concrete narrowing map and state. -/
theorem getDistanceThreshold_narrows_witness :
    ∃ t : Rat, isDyadic 53 t ∧
      getDistanceThreshold (fun _ => 0) (setDistanceThreshold sampleState t) ≠ t :=
  getDistanceThreshold_narrows (fun _ => 0)
    (fun _ => ⟨0, 0, by norm_num, Or.inl (by norm_num)⟩) sampleState
